import Mathlib

/-!
# thin3d: reference counting, preset lookup and default context methods

A shallow embedding of `ext/native/thin3d/thin3d.h` (namespace `Draw`):

* `RefCountedObject` with its constructor, `AddRef` and `Release`;
* the `Texture` dimension getters;
* the inline `DrawContext` members `GetVshaderPreset`, `GetFshaderPreset`,
  `GetShaderSetPreset`, `BindTexture`, `Begin` and `End`.

Pure virtual members are supplied by a `Backend` record of functions, so that
every statement about an inline member holds for every backend.
-/

namespace Draw

/-! ## Machine integers -/

/-- Wrap of a mathematical integer into the range of the 32-bit signed `int`. -/
def wrapInt32 (x : Int) : Int := (x + 2147483648) % 4294967296 - 2147483648

/-! ## RefCountedObject -/

/-- The class `RefCountedObject`.  `refcount_` is the only data member.  The two
counters record the observable effects of `Release`: `deletes` counts executions
of `delete this`, `elogs` counts `ELOG` diagnostics.  Once `delete this` has run the
storage is freed: the record then only reports what the last call did, and the call
sequences below never call a member on it again. -/
structure RefCountedObject where
  refcount_ : Int
  deletes : Nat
  elogs : Nat
  deriving DecidableEq, Repr

namespace RefCountedObject

/-- The constructor, `RefCountedObject() : refcount_(1) {}`. -/
def new : RefCountedObject := { refcount_ := 1, deletes := 0, elogs := 0 }

/-- The member `void AddRef() { refcount_++; }`. -/
def AddRef (o : RefCountedObject) : RefCountedObject :=
  { o with refcount_ := wrapInt32 (o.refcount_ + 1) }

/-- The member `bool Release()`: inside the guard `refcount_ > 0 && refcount_ < 10000`
the count is decremented and, when it reaches zero, the object is deleted and `true`
is returned; outside the guard a diagnostic is logged.  Every other path returns
`false`. -/
def Release (o : RefCountedObject) : Bool × RefCountedObject :=
  if 0 < o.refcount_ ∧ o.refcount_ < 10000 then
    let o1 : RefCountedObject := { o with refcount_ := wrapInt32 (o.refcount_ - 1) }
    if o1.refcount_ = 0 then
      (true, { o1 with deletes := o1.deletes + 1 })
    else
      (false, o1)
  else
    (false, { o with elogs := o.elogs + 1 })

/-- Calling `AddRef` `k` times in a row. -/
def addRefN : Nat → RefCountedObject → RefCountedObject
  | 0, o => o
  | k + 1, o => addRefN k (AddRef o)

/-- A call made by a client on one object. -/
inductive Op where
  | addRef
  | release
  deriving DecidableEq, Repr

/-- Number of `AddRef` calls in a sequence of calls. -/
def countAddRef : List Op → Nat
  | [] => 0
  | Op.addRef :: ops => countAddRef ops + 1
  | Op.release :: ops => countAddRef ops

/-- Number of `Release` calls in a sequence of calls. -/
def countRelease : List Op → Nat
  | [] => 0
  | Op.addRef :: ops => countRelease ops
  | Op.release :: ops => countRelease ops + 1

/-- Run a sequence of calls on an object.  The result is `none` as soon as some
`Release` returns `true` (the object has been deleted); otherwise it is the object
after the last call. -/
def runOps : List Op → RefCountedObject → Option RefCountedObject
  | [], o => some o
  | Op.addRef :: ops, o => runOps ops (AddRef o)
  | Op.release :: ops, o =>
    let r := Release o
    if r.1 then none else runOps ops r.2

end RefCountedObject

/-! ## Enumerations used by the inline members -/

/-- The enum `VertexShaderPreset`; `VS_MAX_PRESET` is the array size. -/
inductive VertexShaderPreset where
  | VS_COLOR_2D
  | VS_TEXTURE_COLOR_2D
  | VS_MAX_PRESET
  deriving DecidableEq, Repr

/-- The enum `FragmentShaderPreset`; `FS_MAX_PRESET` is the array size. -/
inductive FragmentShaderPreset where
  | FS_COLOR_2D
  | FS_TEXTURE_COLOR_2D
  | FS_MAX_PRESET
  deriving DecidableEq, Repr

/-- The enum `ShaderSetPreset`; `SS_MAX_PRESET` is the array size. -/
inductive ShaderSetPreset where
  | SS_COLOR_2D
  | SS_TEXTURE_COLOR_2D
  | SS_MAX_PRESET
  deriving DecidableEq, Repr

/-- Integer value of a `VertexShaderPreset` enumerator. -/
def VertexShaderPreset.toNat : VertexShaderPreset → Nat
  | .VS_COLOR_2D => 0
  | .VS_TEXTURE_COLOR_2D => 1
  | .VS_MAX_PRESET => 2

/-- Integer value of a `FragmentShaderPreset` enumerator. -/
def FragmentShaderPreset.toNat : FragmentShaderPreset → Nat
  | .FS_COLOR_2D => 0
  | .FS_TEXTURE_COLOR_2D => 1
  | .FS_MAX_PRESET => 2

/-- Integer value of a `ShaderSetPreset` enumerator. -/
def ShaderSetPreset.toNat : ShaderSetPreset → Nat
  | .SS_COLOR_2D => 0
  | .SS_TEXTURE_COLOR_2D => 1
  | .SS_MAX_PRESET => 2

/-- The enum `ClearFlag`. -/
inductive ClearFlag where
  | COLOR
  | DEPTH
  | STENCIL
  deriving DecidableEq, Repr

/-- Integer value of a `ClearFlag` enumerator: `COLOR = 1`, `DEPTH = 2`, `STENCIL = 4`. -/
def ClearFlag.toNat : ClearFlag → Nat
  | .COLOR => 1
  | .DEPTH => 2
  | .STENCIL => 4

/-- The enum `TextureType`. -/
inductive TextureType where
  | UNKNOWN
  | LINEAR1D
  | LINEAR2D
  | LINEAR3D
  | CUBE
  | ARRAY1D
  | ARRAY2D
  deriving DecidableEq, Repr

/-- The enum class `DataFormat`. -/
inductive DataFormat where
  | UNDEFINED
  | R8_UNORM
  | R8G8_UNORM
  | R8G8B8_UNORM
  | R8G8B8A8_UNORM
  | R8G8B8A8_UNORM_SRGB
  | R8G8B8A8_SNORM
  | R8G8B8A8_UINT
  | R8G8B8A8_SINT
  | R4G4_UNORM
  | R4G4B4A4_UNORM
  | R16_FLOAT
  | R16G16_FLOAT
  | R16G16B16A16_FLOAT
  | R32_FLOAT
  | R32G32_FLOAT
  | R32G32B32_FLOAT
  | R32G32B32A32_FLOAT
  | BC1_RGBA_UNORM_BLOCK
  | BC1_RGBA_SRGB_BLOCK
  | BC2_UNORM_BLOCK
  | BC2_SRGB_BLOCK
  | BC3_UNORM_BLOCK
  | BC3_SRGB_BLOCK
  | BC4_UNORM_BLOCK
  | BC4_SNORM_BLOCK
  | BC5_UNORM_BLOCK
  | BC5_SNORM_BLOCK
  | BC6H_UFLOAT_BLOCK
  | BC6H_SFLOAT_BLOCK
  | BC7_UNORM_BLOCK
  | BC7_SRGB_BLOCK
  | ETC1
  | S8
  | D16
  | D24_S8
  | D32F
  | D32F_S8
  deriving DecidableEq, Repr

/-- The enum class `ShaderStage`. -/
inductive ShaderStage where
  | VERTEX
  | FRAGMENT
  | GEOMETRY
  | CONTROL
  | EVALUATION
  | COMPUTE
  deriving DecidableEq, Repr

/-! ## Texture -/

/-- The class `Texture`: a `RefCountedObject` with the protected members `filename_`,
`width_`, `height_` and `depth_`. -/
structure Texture where
  base : RefCountedObject
  filename_ : String
  width_ : Int
  height_ : Int
  depth_ : Int
  deriving DecidableEq, Repr

/-- The member `int Width() { return width_; }`. -/
def Texture.Width (t : Texture) : Int := t.width_

/-- The member `int Height() { return height_; }`. -/
def Texture.Height (t : Texture) : Int := t.height_

/-- The member `int Depth() { return depth_; }`. -/
def Texture.Depth (t : Texture) : Int := t.depth_

/-- The arguments of one `Texture::Create` call. -/
structure CreateArgs where
  type : TextureType
  format : DataFormat
  width : Int
  height : Int
  depth : Int
  mipLevels : Int
  deriving DecidableEq, Repr

/-- Modelled from the spec: `Texture::Create` is pure virtual in the header and no
backend implementation is part of the sources.  Following the specification, the call
returns failure when the backend declares the format/type combination unsupported and
leaves the object in the uncreated state, where the three dimensions read zero; on
success the requested dimensions are recorded.  `supported` is the capability table of
the backend. -/
def Texture.Create (supported : TextureType → DataFormat → Bool) (t : Texture)
    (a : CreateArgs) : Bool × Texture :=
  if supported a.type a.format then
    (true, { t with width_ := a.width, height_ := a.height, depth_ := a.depth })
  else
    (false, { t with width_ := 0, height_ := 0, depth_ := 0 })

/-- Modelled from the spec: `DrawContext::CreateTexture()` (no arguments) is pure
virtual in the header.  Following the specification it yields a placeholder to be
filled later: a fresh object holding one reference, in the uncreated state. -/
def CreateTexture : Texture :=
  { base := RefCountedObject.new, filename_ := "", width_ := 0, height_ := 0, depth_ := 0 }

/-- A sequence of `Create` calls on one texture, collecting the returned values. -/
def Texture.createSeq (supported : TextureType → DataFormat → Bool) :
    List CreateArgs → Texture → List Bool × Texture
  | [], t => ([], t)
  | a :: as, t =>
    let r := Texture.Create supported t a
    let rest := Texture.createSeq supported as r.2
    (r.1 :: rest.1, rest.2)

/-! ## DrawContext -/

/-- An object address; `0` is `nullptr`. -/
abbrev Ptr := Nat

/-- The data members of `DrawContext` declared in the header, together with the state
`impl` of the concrete subclass.  The three preset members are C arrays of size
`VS_MAX_PRESET`, `FS_MAX_PRESET` and `SS_MAX_PRESET` holding object addresses. -/
structure DrawContext (σ : Type) where
  base : RefCountedObject
  vsPresets_ : List Ptr
  fsPresets_ : List Ptr
  ssPresets_ : List Ptr
  targetWidth_ : Int
  targetHeight_ : Int
  impl : σ

/-- Everything a member of `DrawContext` can reach: the context itself and the
reference-counted objects in memory, by address. -/
structure World (σ : Type) where
  ctx : DrawContext σ
  heap : Ptr → Option RefCountedObject

/-- The pure virtual members of `DrawContext` called by the inline members, as supplied
by a concrete subclass.  `F` is the type of `float` values, which are only passed
through. -/
structure Backend (σ F : Type) where
  Clear : Int → Nat → F → Int → World σ → World σ
  BindTextures : Int → Int → List Ptr → World σ → World σ

/-- The member `GetVshaderPreset(preset) { return fsPresets_[preset]; }`.  The result
is `none` when the index is outside the array. -/
def GetVshaderPreset {σ : Type} (w : World σ) (preset : VertexShaderPreset) :
    Option Ptr × World σ :=
  (w.ctx.fsPresets_[preset.toNat]?, w)

/-- The member `GetFshaderPreset(preset) { return vsPresets_[preset]; }`.  The result
is `none` when the index is outside the array. -/
def GetFshaderPreset {σ : Type} (w : World σ) (preset : FragmentShaderPreset) :
    Option Ptr × World σ :=
  (w.ctx.vsPresets_[preset.toNat]?, w)

/-- The member `GetShaderSetPreset(preset) { return ssPresets_[preset]; }`.  The result
is `none` when the index is outside the array. -/
def GetShaderSetPreset {σ : Type} (w : World σ) (preset : ShaderSetPreset) :
    Option Ptr × World σ :=
  (w.ctx.ssPresets_[preset.toNat]?, w)

/-- The member `BindTexture(stage, texture) { BindTextures(stage, 1, &texture); }`. -/
def BindTexture {σ F : Type} (b : Backend σ F) (stage : Int) (texture : Ptr)
    (w : World σ) : World σ :=
  b.BindTextures stage 1 [texture] w

/-- The default `Begin(clear, colorval, depthVal, stencilVal)`, whose body is
`Clear(0xF, colorval, depthVal, stencilVal);`. -/
def Begin {σ F : Type} (b : Backend σ F) (_clear : Bool) (colorval : Nat) (depthVal : F)
    (stencilVal : Int) (w : World σ) : World σ :=
  b.Clear 0xF colorval depthVal stencilVal w

/-- The default `End() {}`. -/
def End {σ F : Type} (_b : Backend σ F) (w : World σ) : World σ := w

/-- A call of a pure virtual member, as seen by a subclass that only records. -/
inductive Call (F : Type) where
  | Clear (mask : Int) (colorval : Nat) (depthVal : F) (stencilVal : Int)
  | BindTextures (start : Int) (count : Int) (textures : List Ptr)
  deriving DecidableEq, Repr

/-- Append one recorded call to the log held in the subclass state. -/
def record {F : Type} (c : Call F) (w : World (List (Call F))) : World (List (Call F)) :=
  { w with ctx := { w.ctx with impl := w.ctx.impl ++ [c] } }

/-- The subclass whose virtual members do nothing but log the call they receive. -/
def recorder (F : Type) : Backend (List (Call F)) F where
  Clear := fun mask colorval depthVal stencilVal w =>
    record (Call.Clear mask colorval depthVal stencilVal) w
  BindTextures := fun start count textures w =>
    record (Call.BindTextures start count textures) w

/-- A context whose vertex preset array holds the addresses 1 and 2, whose fragment
preset array holds 3 and 4, and whose pipeline preset array holds 5 and 6. -/
def presetWorld : World Unit where
  ctx :=
    { base := RefCountedObject.new
      vsPresets_ := [1, 2]
      fsPresets_ := [3, 4]
      ssPresets_ := [5, 6]
      targetWidth_ := 0
      targetHeight_ := 0
      impl := () }
  heap := fun p => if 1 ≤ p ∧ p ≤ 6 then some RefCountedObject.new else none

/-- What `GetStage()` reports for the modules of `presetWorld`: the modules at 1 and 2
are vertex shaders, those at 3 and 4 fragment shaders. -/
def presetStage (p : Ptr) : ShaderStage :=
  if p = 1 ∨ p = 2 then ShaderStage.VERTEX else ShaderStage.FRAGMENT

end Draw

namespace Draw

open RefCountedObject

/-! ## Arithmetic helpers -/

theorem wrapInt32_of_range (x : Int) (h1 : -2147483648 ≤ x) (h2 : x < 2147483648) :
    wrapInt32 x = x := by
  unfold wrapInt32
  omega

theorem Release_in_range (o : RefCountedObject) (h1 : 0 < o.refcount_)
    (h2 : o.refcount_ < 10000) :
    Release o =
      if o.refcount_ = 1 then
        (true, { o with refcount_ := 0, deletes := o.deletes + 1 })
      else (false, { o with refcount_ := o.refcount_ - 1 }) := by
  have hw : wrapInt32 (o.refcount_ - 1) = o.refcount_ - 1 :=
    wrapInt32_of_range _ (by omega) (by omega)
  unfold Release
  simp only [h1, h2, and_self, if_true, hw]
  by_cases h : o.refcount_ = 1
  · simp [h]
  · have h3 : ¬ (o.refcount_ - 1 = 0) := by omega
    simp [h, h3]

theorem Release_out_of_range (o : RefCountedObject)
    (h : o.refcount_ ≤ 0 ∨ 10000 ≤ o.refcount_) :
    Release o = (false, { o with elogs := o.elogs + 1 }) := by
  have hg : ¬ (0 < o.refcount_ ∧ o.refcount_ < 10000) := by omega
  unfold Release
  simp only [hg, if_false]

theorem AddRef_small (o : RefCountedObject) (h1 : -2147483648 ≤ o.refcount_ + 1)
    (h2 : o.refcount_ + 1 < 2147483648) :
    AddRef o = { o with refcount_ := o.refcount_ + 1 } := by
  unfold AddRef
  rw [wrapInt32_of_range _ h1 h2]

/-! ## C1 -/

/-- C1: for an object whose count `n` satisfies `0 < n < 10000`, `Release` returns
`true` exactly when `n = 1`, and in that case the object is deleted (once) with the
count at 0; when `2 ≤ n` it returns `false`, nothing is deleted, no diagnostic is
logged, and the count becomes `n - 1`. -/
theorem Release_reports_last (o : RefCountedObject)
    (h1 : 0 < o.refcount_) (h2 : o.refcount_ < 10000) :
    ((Release o).1 = true ↔ o.refcount_ = 1) ∧
    (o.refcount_ = 1 →
      (Release o).2.deletes = o.deletes + 1 ∧ (Release o).2.refcount_ = 0) ∧
    (2 ≤ o.refcount_ →
      (Release o).1 = false ∧ (Release o).2.deletes = o.deletes ∧
      (Release o).2.elogs = o.elogs ∧
      (Release o).2.refcount_ = o.refcount_ - 1) := by
  rw [Release_in_range o h1 h2]
  by_cases h : o.refcount_ = 1
  · simp [h]
  · simp [h]

/-- Witness for C1 at a count of 3 and at a count of 1. -/
theorem Release_reports_last_witness :
    (((Release { refcount_ := 3, deletes := 0, elogs := 0 }).1 = true ↔ (3 : Int) = 1) ∧
     (Release { refcount_ := 3, deletes := 0, elogs := 0 }).2.refcount_ = 2) ∧
    (Release RefCountedObject.new).1 = true := by
  refine ⟨⟨?_, ?_⟩, ?_⟩
  · exact (Release_reports_last { refcount_ := 3, deletes := 0, elogs := 0 }
      (by decide) (by decide)).1
  · exact ((Release_reports_last { refcount_ := 3, deletes := 0, elogs := 0 }
      (by decide) (by decide)).2.2 (by decide)).2.2.2
  · exact (Release_reports_last RefCountedObject.new (by decide) (by decide)).1.mpr rfl

/-! ## C5 -/

/-- C5: for an object whose count `n` satisfies `n ≤ 0` or `n ≥ 10000`, `Release`
returns `false`, deletes nothing, leaves the count equal to `n`, and logs exactly one
diagnostic. -/
theorem Release_refuses_invalid (o : RefCountedObject)
    (h : o.refcount_ ≤ 0 ∨ 10000 ≤ o.refcount_) :
    (Release o).1 = false ∧ (Release o).2.deletes = o.deletes ∧
    (Release o).2.refcount_ = o.refcount_ ∧ (Release o).2.elogs = o.elogs + 1 := by
  rw [Release_out_of_range o h]
  exact ⟨rfl, rfl, rfl, rfl⟩

/-- Witness for C5 at the counts 0 and 10000. -/
theorem Release_refuses_invalid_witness :
    (Release { refcount_ := 0, deletes := 0, elogs := 0 }).1 = false ∧
    (Release { refcount_ := 10000, deletes := 0, elogs := 0 }).2.refcount_ = 10000 :=
  ⟨(Release_refuses_invalid { refcount_ := 0, deletes := 0, elogs := 0 }
      (Or.inl (by decide))).1,
   (Release_refuses_invalid { refcount_ := 10000, deletes := 0, elogs := 0 }
      (Or.inr (by decide))).2.2.1⟩

/-! ## Iterated calls -/

theorem addRefN_count (k : Nat) (o : RefCountedObject) (h1 : -2147483648 ≤ o.refcount_)
    (h2 : o.refcount_ + k < 2147483648) :
    addRefN k o = { o with refcount_ := o.refcount_ + k } := by
  induction k generalizing o with
  | zero => simp [addRefN]
  | succ k ih =>
    have hk : ((k + 1 : Nat) : Int) = (k : Int) + 1 := by push_cast; rfl
    rw [hk] at h2
    have ha : AddRef o = { o with refcount_ := o.refcount_ + 1 } :=
      AddRef_small o (by omega) (by omega)
    have hi := ih (AddRef o) (by rw [ha]; show -2147483648 ≤ o.refcount_ + 1; omega)
      (by rw [ha]; show o.refcount_ + 1 + (k : Int) < 2147483648; omega)
    rw [addRefN, hi, ha, hk]
    show ({ o with refcount_ := o.refcount_ + 1 + (k : Int) } : RefCountedObject) = _
    congr 1
    omega

theorem runOps_replicate_addRef (k : Nat) (o : RefCountedObject) :
    runOps (List.replicate k Op.addRef) o = some (addRefN k o) := by
  induction k generalizing o with
  | zero => rfl
  | succ k ih => simp [List.replicate_succ, runOps, addRefN, ih]

theorem runOps_balanced (ops : List Op) (o r : RefCountedObject)
    (hrun : runOps ops o = some r) (h1 : 1 ≤ o.refcount_)
    (hbal : ∀ n ≤ ops.length,
      o.refcount_ + (countAddRef (ops.take n) : Int) ≤ (countRelease (ops.take n) : Int) + 9999) :
    1 ≤ r.refcount_ ∧ r.refcount_ < 10000 ∧
    r.refcount_ = o.refcount_ + (countAddRef ops : Int) - (countRelease ops : Int) ∧
    r.deletes = o.deletes := by
  induction ops generalizing o with
  | nil =>
    simp only [runOps, Option.some.injEq] at hrun
    subst hrun
    have h0 := hbal 0 (Nat.le_refl _)
    simp only [List.take, countAddRef, countRelease, Nat.cast_zero] at h0
    simp only [countAddRef, countRelease, Nat.cast_zero]
    refine ⟨h1, by omega, by omega, trivial⟩
  | cons op ops ih =>
    have h0 := hbal 0 (Nat.zero_le _)
    simp only [List.take, countAddRef, countRelease, Nat.cast_zero] at h0
    cases op with
    | addRef =>
      have hstep := hbal 1 (by simp)
      simp only [List.take, countAddRef, countRelease, Nat.cast_zero, Nat.cast_add,
        Nat.cast_one] at hstep
      have ha : AddRef o = { o with refcount_ := o.refcount_ + 1 } :=
        AddRef_small o (by omega) (by omega)
      rw [runOps, ha] at hrun
      have hi := ih _ hrun (by show 1 ≤ o.refcount_ + 1; omega) (by
        intro n hn
        have hb := hbal (n + 1) (by simpa using hn)
        simp only [List.take, countAddRef, countRelease, Nat.cast_add, Nat.cast_one] at hb
        show o.refcount_ + 1 + (countAddRef (List.take n ops) : Int) ≤ _
        omega)
      obtain ⟨ha1, ha2, ha3, ha4⟩ := hi
      have hrc : ({ o with refcount_ := o.refcount_ + 1 } : RefCountedObject).refcount_
          = o.refcount_ + 1 := rfl
      rw [hrc] at ha3
      simp only [countAddRef, countRelease, Nat.cast_add, Nat.cast_one]
      exact ⟨ha1, ha2, by omega, ha4⟩
    | release =>
      rw [runOps] at hrun
      have hr := Release_in_range o (by omega) (by omega)
      by_cases hone : o.refcount_ = 1
      · simp [hr, hone] at hrun
      · simp only [hr, hone, if_false] at hrun
        have hi := ih _ (by simpa using hrun) (by show 1 ≤ o.refcount_ - 1; omega) (by
          intro n hn
          have hb := hbal (n + 1) (by simpa using hn)
          simp only [List.take, countAddRef, countRelease, Nat.cast_add, Nat.cast_one] at hb
          show o.refcount_ - 1 + (countAddRef (List.take n ops) : Int) ≤ _
          omega)
        obtain ⟨ha1, ha2, ha3, ha4⟩ := hi
        have hrc : ({ o with refcount_ := o.refcount_ - 1 } : RefCountedObject).refcount_
            = o.refcount_ - 1 := rfl
        rw [hrc] at ha3
        simp only [countAddRef, countRelease, Nat.cast_add, Nat.cast_one]
        exact ⟨ha1, ha2, by omega, ha4⟩

theorem runOps_stuck (ops : List Op) (o r : RefCountedObject)
    (hrun : runOps ops o = some r) (h1 : 10000 ≤ o.refcount_)
    (h2 : o.refcount_ + (countAddRef ops : Int) < 2147483648) :
    10000 ≤ r.refcount_ := by
  induction ops generalizing o with
  | nil =>
    simp only [runOps, Option.some.injEq] at hrun
    subst hrun
    exact h1
  | cons op ops ih =>
    cases op with
    | addRef =>
      simp only [countAddRef, Nat.cast_add, Nat.cast_one] at h2
      have ha : AddRef o = { o with refcount_ := o.refcount_ + 1 } :=
        AddRef_small o (by omega) (by omega)
      rw [runOps, ha] at hrun
      exact ih _ hrun (by show 10000 ≤ o.refcount_ + 1; omega)
        (by show o.refcount_ + 1 + (countAddRef ops : Int) < 2147483648; omega)
    | release =>
      simp only [countAddRef] at h2
      rw [runOps] at hrun
      have hr := Release_out_of_range o (Or.inr h1)
      simp only [hr] at hrun
      exact ih _ (by simpa using hrun) (by show 10000 ≤ o.refcount_; omega)
        (by show o.refcount_ + (countAddRef ops : Int) < 2147483648; omega)

theorem runOps_overrun (ops : List Op) (o r : RefCountedObject)
    (hrun : runOps ops o = some r) (h1 : 1 ≤ o.refcount_) (h2 : o.refcount_ < 10000)
    (h3 : o.refcount_ + (countAddRef ops : Int) < 2147483648)
    (hex : ∃ n, n ≤ ops.length ∧
      (countRelease (ops.take n) : Int) + 9999 < o.refcount_ + (countAddRef (ops.take n) : Int)) :
    10000 ≤ r.refcount_ := by
  induction ops generalizing o with
  | nil =>
    obtain ⟨n, _, hn⟩ := hex
    simp only [List.take_nil, countAddRef, countRelease, Nat.cast_zero] at hn
    omega
  | cons op ops ih =>
    obtain ⟨n, hnl, hn⟩ := hex
    cases n with
    | zero =>
      simp only [List.take, countAddRef, countRelease, Nat.cast_zero] at hn
      omega
    | succ n =>
      have hnl2 : n ≤ ops.length := by simpa using hnl
      cases op with
      | addRef =>
        simp only [List.take, countAddRef, countRelease, Nat.cast_add, Nat.cast_one] at hn h3
        have ha : AddRef o = { o with refcount_ := o.refcount_ + 1 } :=
          AddRef_small o (by omega) (by omega)
        rw [runOps, ha] at hrun
        by_cases h9 : o.refcount_ = 9999
        · exact runOps_stuck ops _ r hrun (by show 10000 ≤ o.refcount_ + 1; omega)
            (by show o.refcount_ + 1 + (countAddRef ops : Int) < 2147483648; omega)
        · exact ih _ hrun (by show 1 ≤ o.refcount_ + 1; omega)
            (by show o.refcount_ + 1 < 10000; omega)
            (by show o.refcount_ + 1 + (countAddRef ops : Int) < 2147483648; omega)
            ⟨n, hnl2, by
              show _ < o.refcount_ + 1 + (countAddRef (List.take n ops) : Int)
              omega⟩
      | release =>
        simp only [List.take, countAddRef, countRelease, Nat.cast_add, Nat.cast_one] at hn h3
        rw [runOps] at hrun
        have hr := Release_in_range o (by omega) h2
        by_cases hone : o.refcount_ = 1
        · simp [hr, hone] at hrun
        · simp only [hr, hone, if_false] at hrun
          exact ih _ (by simpa using hrun) (by show 1 ≤ o.refcount_ - 1; omega)
            (by show o.refcount_ - 1 < 10000; omega)
            (by show o.refcount_ - 1 + (countAddRef ops : Int) < 2147483648; omega)
            ⟨n, hnl2, by
              show _ < o.refcount_ - 1 + (countAddRef (List.take n ops) : Int)
              omega⟩

theorem createSeq_all_failed (supported : TextureType → DataFormat → Bool)
    (as : List CreateArgs) (t : Texture)
    (hz : t.Width = 0 ∧ t.Height = 0 ∧ t.Depth = 0)
    (hall : ∀ r ∈ (Texture.createSeq supported as t).1, r = false) :
    (Texture.createSeq supported as t).2.Width = 0 ∧
    (Texture.createSeq supported as t).2.Height = 0 ∧
    (Texture.createSeq supported as t).2.Depth = 0 := by
  induction as generalizing t with
  | nil => simpa [Texture.createSeq] using hz
  | cons a as ih =>
    simp only [Texture.createSeq, List.mem_cons, forall_eq_or_imp] at hall ⊢
    obtain ⟨hfirst, hrest⟩ := hall
    apply ih _ _ hrest
    unfold Texture.Create at hfirst ⊢
    by_cases hs : supported a.type a.format = true
    · simp [hs] at hfirst
    · simp [hs, Texture.Width, Texture.Height, Texture.Depth]

/-! ## C2 -/

/-- C2 (as stated) fails at the count 9999, which lies in the range [1, 10000):
`AddRef` raises the count to 10000, `Release` then refuses, and the count is left at
10000 instead of 9999. -/
theorem AddRef_Release_at_9999 :
    (1 : Int) ≤ 9999 ∧ (9999 : Int) < 10000 ∧
    (Release (AddRef { refcount_ := 9999, deletes := 0, elogs := 0 })).2.refcount_ = 10000 ∧
    (Release (AddRef { refcount_ := 9999, deletes := 0, elogs := 0 })).2.refcount_ ≠ 9999 := by
  decide

/-- C2 (amended): for an object whose count `n` lies in [1, 10000), `AddRef` followed
by `Release` returns `false` and deletes nothing; when `n < 9999` the object is exactly
as before (count `n`, no diagnostic); when `n = 9999` the count is left at 10000. -/
theorem AddRef_Release_balanced (o : RefCountedObject)
    (h1 : 1 ≤ o.refcount_) (h2 : o.refcount_ < 10000) :
    (Release (AddRef o)).1 = false ∧ (Release (AddRef o)).2.deletes = o.deletes ∧
    (o.refcount_ < 9999 → (Release (AddRef o)).2 = o) ∧
    (o.refcount_ = 9999 → (Release (AddRef o)).2.refcount_ = 10000) := by
  have ha : AddRef o = { o with refcount_ := o.refcount_ + 1 } :=
    AddRef_small o (by omega) (by omega)
  rw [ha]
  by_cases h : o.refcount_ < 9999
  · have hr := Release_in_range { o with refcount_ := o.refcount_ + 1 }
      (by show 0 < o.refcount_ + 1; omega) (by show o.refcount_ + 1 < 10000; omega)
    have hne : ¬ (o.refcount_ + 1 = 1) := by omega
    simp only [hne, if_false] at hr
    rw [hr]
    refine ⟨rfl, rfl, fun _ => ?_, fun h9 => by omega⟩
    show ({ o with refcount_ := o.refcount_ + 1 - 1 } : RefCountedObject) = o
    cases o
    simp
  · have hr := Release_out_of_range { o with refcount_ := o.refcount_ + 1 }
      (Or.inr (by show 10000 ≤ o.refcount_ + 1; omega))
    rw [hr]
    refine ⟨rfl, rfl, fun h9 => absurd h9 h, fun h9 => ?_⟩
    show o.refcount_ + 1 = 10000
    omega

/-- Witness for C2 (amended) at the count 5. -/
theorem AddRef_Release_balanced_witness :
    (Release (AddRef { refcount_ := 5, deletes := 0, elogs := 0 })).1 = false ∧
    (Release (AddRef { refcount_ := 5, deletes := 0, elogs := 0 })).2 =
      { refcount_ := 5, deletes := 0, elogs := 0 } :=
  ⟨(AddRef_Release_balanced { refcount_ := 5, deletes := 0, elogs := 0 }
      (by decide) (by decide)).1,
   (AddRef_Release_balanced { refcount_ := 5, deletes := 0, elogs := 0 }
      (by decide) (by decide)).2.2.1 (by decide)⟩

/-! ## C3 -/

/-- C3 (as stated) fails: after construction and 9999 calls of `AddRef` (no `Release`
has returned `true`) the count is 10000, which is not below 10000. -/
theorem refcount_reaches_10000 :
    runOps (List.replicate 9999 Op.addRef) RefCountedObject.new =
      some { refcount_ := 10000, deletes := 0, elogs := 0 } ∧
    ¬ ((10000 : Int) < 10000) := by
  refine ⟨?_, by decide⟩
  rw [runOps_replicate_addRef, addRefN_count 9999 RefCountedObject.new (by decide) (by decide)]
  rfl

/-- C3 (amended): the count is exactly 1 immediately after construction.  After any
finite sequence of `AddRef` and `Release` calls on a newly constructed object during
which no `Release` has returned `true`, the count is in the range `1 ≤ count < 10000`
provided that at every point of the sequence the number of `AddRef` calls made so far
exceeds the number of `Release` calls made so far by at most 9998; the count then
equals 1 plus the calls of `AddRef` minus the calls of `Release`, and the object has
not been deleted.  For a sequence with fewer than 2147483647 `AddRef` calls the
proviso is also necessary: if the count ends below 10000, it holds. -/
theorem refcount_in_range (ops : List Op) (o : RefCountedObject)
    (hrun : runOps ops RefCountedObject.new = some o) :
    RefCountedObject.new.refcount_ = 1 ∧
    ((∀ n ≤ ops.length,
        (countAddRef (ops.take n) : Int) ≤ (countRelease (ops.take n) : Int) + 9998) →
      1 ≤ o.refcount_ ∧ o.refcount_ < 10000 ∧
      o.refcount_ = 1 + (countAddRef ops : Int) - (countRelease ops : Int) ∧
      o.deletes = 0) ∧
    (countAddRef ops < 2147483647 → o.refcount_ < 10000 →
      ∀ n ≤ ops.length,
        (countAddRef (ops.take n) : Int) ≤ (countRelease (ops.take n) : Int) + 9998) := by
  have hn : RefCountedObject.new.refcount_ = 1 := rfl
  refine ⟨rfl, fun hbal => ?_, fun hsmall hlt => ?_⟩
  · have hinv := runOps_balanced ops RefCountedObject.new o hrun (by rw [hn]) (by
      intro n hle
      have := hbal n hle
      rw [hn]
      omega)
    rw [hn] at hinv
    obtain ⟨ha, hb, hc, hd⟩ := hinv
    refine ⟨ha, hb, hc, ?_⟩
    rw [hd]
    rfl
  · by_contra hcon
    push_neg at hcon
    obtain ⟨n, hle, hgt⟩ := hcon
    have hbig := runOps_overrun ops RefCountedObject.new o hrun (by rw [hn]) (by rw [hn]; decide)
      (by rw [hn]; omega) ⟨n, hle, by rw [hn]; omega⟩
    omega

/-- Witness for C3 (amended) on the sequence `AddRef`, `Release`, `AddRef`, `Release`,
`AddRef`. -/
theorem refcount_in_range_witness :
    runOps [Op.addRef, Op.release, Op.addRef, Op.release, Op.addRef] RefCountedObject.new =
      some { refcount_ := 2, deletes := 0, elogs := 0 } ∧
    (1 : Int) ≤ 2 ∧ (2 : Int) < 10000 := by
  have h := (refcount_in_range [Op.addRef, Op.release, Op.addRef, Op.release, Op.addRef]
    { refcount_ := 2, deletes := 0, elogs := 0 } (by decide)).2.1 (by decide)
  exact ⟨by decide, h.1, h.2.1⟩

/-! ## C4 -/

/-- C6 fails on the code: in `presetWorld` every slot of the vertex preset array holds
a module of stage VERTEX and every slot of the fragment preset array holds a module of
stage FRAGMENT, yet `GetVshaderPreset` reads the fragment array and returns a FRAGMENT
module for both valid indices, and `GetFshaderPreset` reads the vertex array and
returns a VERTEX module for both valid indices. -/
theorem preset_lookup_swapped :
    (∀ p ∈ presetWorld.ctx.vsPresets_, presetStage p = ShaderStage.VERTEX) ∧
    (∀ p ∈ presetWorld.ctx.fsPresets_, presetStage p = ShaderStage.FRAGMENT) ∧
    (GetVshaderPreset presetWorld VertexShaderPreset.VS_COLOR_2D).1 = some 3 ∧
    (GetVshaderPreset presetWorld VertexShaderPreset.VS_TEXTURE_COLOR_2D).1 = some 4 ∧
    presetStage 3 = ShaderStage.FRAGMENT ∧ presetStage 4 = ShaderStage.FRAGMENT ∧
    (GetFshaderPreset presetWorld FragmentShaderPreset.FS_COLOR_2D).1 = some 1 ∧
    (GetFshaderPreset presetWorld FragmentShaderPreset.FS_TEXTURE_COLOR_2D).1 = some 2 ∧
    presetStage 1 = ShaderStage.VERTEX ∧ presetStage 2 = ShaderStage.VERTEX := by
  decide

/-! ## C7 -/

/-- C7: for every state and every preset index, the three preset lookups leave the
whole state as it was: the context (its preset arrays included) and every object in
memory, hence the reference count of the returned object and of every other preset;
the value returned is the array slot itself. -/
theorem preset_lookup_non_owning {σ : Type} (w : World σ) (pv : VertexShaderPreset)
    (pf : FragmentShaderPreset) (ps : ShaderSetPreset) :
    ((GetVshaderPreset w pv).2 = w ∧ (GetFshaderPreset w pf).2 = w ∧
      (GetShaderSetPreset w ps).2 = w) ∧
    (∀ a : Ptr, (GetVshaderPreset w pv).2.heap a = w.heap a ∧
      (GetFshaderPreset w pf).2.heap a = w.heap a ∧
      (GetShaderSetPreset w ps).2.heap a = w.heap a) ∧
    ((GetVshaderPreset w pv).2.ctx.vsPresets_ = w.ctx.vsPresets_ ∧
      (GetVshaderPreset w pv).2.ctx.fsPresets_ = w.ctx.fsPresets_ ∧
      (GetVshaderPreset w pv).2.ctx.ssPresets_ = w.ctx.ssPresets_) ∧
    (GetShaderSetPreset w ps).1 = w.ctx.ssPresets_[ps.toNat]? :=
  ⟨⟨rfl, rfl, rfl⟩, fun _ => ⟨rfl, rfl, rfl⟩, ⟨rfl, rfl, rfl⟩, rfl⟩

/-! ## C8 -/

/-- C8: for every backend and all arguments, the default `Begin` is one call of the
backend `Clear` with mask 15 and the three values unchanged, whatever the `clear` flag;
on the recording backend it appends exactly that one call to the log and changes
nothing else; the mask 15 contains each of the bits COLOR, DEPTH and STENCIL; the
default `End` leaves the state as it was. -/
theorem Begin_is_one_Clear {σ F : Type} (b : Backend σ F) (clear : Bool) (colorval : Nat)
    (depthVal : F) (stencilVal : Int) (w : World σ) (r : World (List (Call F))) :
    Begin b clear colorval depthVal stencilVal w = b.Clear 15 colorval depthVal stencilVal w ∧
    (Begin (recorder F) clear colorval depthVal stencilVal r).ctx.impl =
      r.ctx.impl ++ [Call.Clear ((15 : Nat) : Int) colorval depthVal stencilVal] ∧
    (Begin (recorder F) clear colorval depthVal stencilVal r).heap = r.heap ∧
    (Begin (recorder F) clear colorval depthVal stencilVal r).ctx.base = r.ctx.base ∧
    (∀ f : ClearFlag, (15 : Nat) &&& f.toNat = f.toNat) ∧
    (15 : Nat) &&& (ClearFlag.COLOR.toNat ||| ClearFlag.DEPTH.toNat ||| ClearFlag.STENCIL.toNat)
      = ClearFlag.COLOR.toNat ||| ClearFlag.DEPTH.toNat ||| ClearFlag.STENCIL.toNat ∧
    End b w = w ∧ End (recorder F) r = r := by
  refine ⟨rfl, rfl, rfl, rfl, ?_, by decide, rfl, rfl⟩
  intro f
  cases f <;> decide

/-! ## C9 -/

/-- C9: after a `Create` call that returned failure, `Width()`, `Height()` and
`Depth()` all return 0, whatever the texture was before; and a placeholder texture on
which every `Create` call so far has failed (none included) reads 0 in all three. -/
theorem failed_Create_reads_zero (supported : TextureType → DataFormat → Bool)
    (t : Texture) (a : CreateArgs) (as : List CreateArgs)
    (hfail : (Texture.Create supported t a).1 = false)
    (hall : ∀ r ∈ (Texture.createSeq supported as CreateTexture).1, r = false) :
    ((Texture.Create supported t a).2.Width = 0 ∧
      (Texture.Create supported t a).2.Height = 0 ∧
      (Texture.Create supported t a).2.Depth = 0) ∧
    ((Texture.createSeq supported as CreateTexture).2.Width = 0 ∧
      (Texture.createSeq supported as CreateTexture).2.Height = 0 ∧
      (Texture.createSeq supported as CreateTexture).2.Depth = 0) := by
  refine ⟨?_, createSeq_all_failed supported as CreateTexture ⟨rfl, rfl, rfl⟩ hall⟩
  unfold Texture.Create at hfail ⊢
  by_cases hs : supported a.type a.format = true
  · simp [hs] at hfail
  · simp [hs, Texture.Width, Texture.Height, Texture.Depth]

/-- Witness for C9 on a backend that supports nothing, with a texture that had been
64 by 32 by 1. -/
theorem failed_Create_reads_zero_witness :
    (Texture.Create (fun _ _ => false)
      { base := RefCountedObject.new, filename_ := "", width_ := 64, height_ := 32,
        depth_ := 1 }
      { type := TextureType.LINEAR2D, format := DataFormat.ETC1, width := 8, height := 8,
        depth := 1, mipLevels := 1 }).2.Width = 0 ∧
    (Texture.createSeq (fun _ _ => false)
      [{ type := TextureType.CUBE, format := DataFormat.D16, width := 4, height := 4,
         depth := 1, mipLevels := 1 }] CreateTexture).2.Height = 0 :=
  ⟨(failed_Create_reads_zero (fun _ _ => false)
      { base := RefCountedObject.new, filename_ := "", width_ := 64, height_ := 32,
        depth_ := 1 }
      { type := TextureType.LINEAR2D, format := DataFormat.ETC1, width := 8, height := 8,
        depth := 1, mipLevels := 1 }
      [{ type := TextureType.CUBE, format := DataFormat.D16, width := 4, height := 4,
         depth := 1, mipLevels := 1 }] rfl (by decide)).1.1,
   (failed_Create_reads_zero (fun _ _ => false)
      { base := RefCountedObject.new, filename_ := "", width_ := 64, height_ := 32,
        depth_ := 1 }
      { type := TextureType.LINEAR2D, format := DataFormat.ETC1, width := 8, height := 8,
        depth := 1, mipLevels := 1 }
      [{ type := TextureType.CUBE, format := DataFormat.D16, width := 4, height := 4,
         depth := 1, mipLevels := 1 }] rfl (by decide)).2.2.1⟩

/-! ## C10 -/

/-- C10: for every backend, stage index and texture address (null included),
`BindTexture(stage, texture)` is the backend `BindTextures` called with start `stage`,
count 1 and the one-element array holding `texture`; on the recording backend it
appends exactly that one call to the log and changes nothing else. -/
theorem BindTexture_is_single_BindTextures {σ F : Type} (b : Backend σ F) (stage : Int)
    (texture : Ptr) (w : World σ) (r : World (List (Call F))) :
    BindTexture b stage texture w = b.BindTextures stage 1 [texture] w ∧
    (BindTexture (recorder F) stage texture r).ctx.impl =
      r.ctx.impl ++ [Call.BindTextures stage 1 [texture]] ∧
    (BindTexture (recorder F) stage texture r).heap = r.heap ∧
    (BindTexture (recorder F) stage texture r).ctx.base = r.ctx.base ∧
    (BindTexture (recorder F) stage texture r).ctx.vsPresets_ = r.ctx.vsPresets_ ∧
    (BindTexture (recorder F) stage texture r).ctx.fsPresets_ = r.ctx.fsPresets_ ∧
    (BindTexture (recorder F) stage texture r).ctx.ssPresets_ = r.ctx.ssPresets_ ∧
    (BindTexture (recorder F) stage texture r).ctx.targetWidth_ = r.ctx.targetWidth_ ∧
    (BindTexture (recorder F) stage texture r).ctx.targetHeight_ = r.ctx.targetHeight_ :=
  ⟨rfl, rfl, rfl, rfl, rfl, rfl, rfl, rfl, rfl⟩

end Draw
